import Mathlib

/-!
Shallow embedding of the MoviWebApp data-access and movie-enrichment layer
(`src/models.py`, `src/data_manager.py`, `src/app.py`) and proofs about it.

Conventions:
* Python `None` and optional values are `Option`; a Python function that
  returns `dict | None` becomes `Option _`.
* Python floats appearing as ratings are modelled as `Rat`: every rating the
  code handles is produced by `float()` on a finite decimal literal, so no
  IEEE-specific behaviour is involved.
* The OMDb HTTP exchange is modelled by an explicit outcome value
  (`ApiOutcome` / `SearchOutcome`): success with a parsed JSON payload,
  "Response" ≠ "True", a network error (`requests.RequestException`), or a
  JSON-parse failure of the response body.
* The SQLAlchemy session/DB is modelled by an explicit `DB` value threaded
  through the operations; committed state is the `DB` returned.
-/

/-! ## Data model (`src/models.py`) -/

/-- Row of the `users` table: integer primary key and a name
(`users.name` is `nullable=False`; the empty string is not NULL and is
accepted by the column). -/
structure User where
  id : Nat
  name : String
deriving Repr, DecidableEq

/-- Row of the `movies` table. These are exactly the mapped columns of the
`Movie` model in `src/models.py`: `id`, `title`, `director`, `year`,
`rating` (the OMDb rating), `poster`, `imdb_id`, `user_id`. There is no
`user_rating` column. -/
structure MovieRow where
  id : Nat
  title : String
  director : String
  year : Int
  rating : Rat
  poster : Option String
  imdb_id : Option String
  user_id : Nat
deriving Repr, DecidableEq

/-- The names of the mapped columns declared on the `Movie` model in
`src/models.py` (lines 34–45), in declaration order. -/
def movieColumns : List String :=
  ["id", "title", "director", "year", "rating", "poster", "imdb_id", "user_id"]

/-- Database state: the two tables plus the autoincrement counters for the
surrogate primary keys. -/
structure DB where
  users : List User
  movies : List MovieRow
  nextUserId : Nat
  nextMovieId : Nat
deriving Repr, DecidableEq

/-! ## OMDb client (`src/app.py`) -/

/-- The fields of a parsed single-movie OMDb JSON payload that the code reads
with `data.get(...)`; each is `Option` because `dict.get` yields `None`
for a missing key. -/
structure OmdbMovieData where
  title : Option String
  director : Option String
  year : Option String
  imdbRating : Option String
  poster : Option String
  imdbID : Option String
deriving Repr, DecidableEq

/-- Outcome of one single-movie OMDb HTTP exchange, as the code can observe
it: the response parsed and `Response == 'True'` (with the payload fields);
`Response != 'True'`; a `requests.RequestException` (network/HTTP error);
or the response body failing to parse as JSON (`response.json()` raises). -/
inductive ApiOutcome where
  | success (d : OmdbMovieData)
  | noMatch
  | networkError
  | parseError
deriving Repr, DecidableEq

/-- One entry of the `Search` array of an OMDb search response, again with
`Option` for `dict.get`. -/
structure SearchEntry where
  title : Option String
  year : Option String
  imdbID : Option String
  poster : Option String
deriving Repr, DecidableEq

/-- Outcome of one OMDb search HTTP exchange. -/
inductive SearchOutcome where
  | success (entries : List SearchEntry)
  | noMatch
  | networkError
deriving Repr, DecidableEq

/-- A search hit as built by `search_movies_from_api` (`src/app.py` 125–130). -/
structure SearchHit where
  title : String
  year : String
  imdb_id : String
  poster : Option String
deriving Repr, DecidableEq

/-- Decimal value of a list of digit characters, most significant first —
the fold Python `int(s)` performs on an all-digit string (and the same fold
`String.toNat?` uses). Stated over `List Char` so that the kernel can
evaluate it on concrete inputs. -/
def natOfDigitList (l : List Char) : Nat :=
  l.foldl (fun n c => n * 10 + (c.toNat - '0'.toNat)) 0

/-- Python `str.isdigit()`: true iff the string is nonempty and every
character is a decimal digit. (Python's `isdigit` also accepts some
non-ASCII digit-like characters; OMDb emits ASCII, and the spec's
"all-decimal-digit" reading is the ASCII one.) -/
def pyIsDigit (s : String) : Bool :=
  !s.data.isEmpty && s.data.all (·.isDigit)

/-- Python `int(s)` on an all-digit string, the only shape the code feeds it
after its `isdigit()` guard. -/
def pyIntOfDigits (s : String) : Nat :=
  natOfDigitList s.data

/-- Python `str.split('.')`: cut at every `'.'`, keeping empty pieces, so
`"8.8"` gives `["8", "8"]` and `""` gives `[""]`. -/
def splitDot : List Char → List (List Char)
  | [] => [[]]
  | c :: cs =>
      if c = '.' then [] :: splitDot cs
      else
        match splitDot cs with
        | [] => [[c]]
        | p :: ps => (c :: p) :: ps

/-- Python `float(s)` on the unsigned decimal literals OMDb emits for
`imdbRating` (such as "8.8" or "75"): `none` models `float()` raising
`ValueError` on any other shape. (Python `float` also accepts signs,
exponents, leading/trailing dots and "inf"/"nan"; OMDb ratings never take
those shapes, and no claim depends on them.) -/
def pyFloat (s : String) : Option Rat :=
  match splitDot s.data with
  | [w] =>
      if !w.isEmpty && w.all (·.isDigit) then some (natOfDigitList w) else none
  | [w, f] =>
      if !w.isEmpty && w.all (·.isDigit) && !f.isEmpty && f.all (·.isDigit) then
        some ((natOfDigitList w : Rat) + (natOfDigitList f : Rat) / ((10 : Rat) ^ f.length))
      else none
  | _ => none

/-- The year conversion `int(data.get('Year', 0)) if data.get('Year', '').isdigit() else 0`
(`src/app.py` line 71, repeated verbatim at line 270): a missing key gives
`''`, `''.isdigit()` is false, so a missing or non-all-digit year string
yields 0; an all-digit string is converted by `int`. -/
def parseYearField (y : Option String) : Int :=
  let s := y.getD ""
  if pyIsDigit s then (pyIntOfDigits s : Int) else 0

/-- The rating conversion
`float(data.get('imdbRating', 0)) if data.get('imdbRating', 'N/A') != 'N/A' else 0.0`
(`src/app.py` line 72, repeated verbatim at line 271): a missing key or the
sentinel "N/A" gives 0.0; otherwise `float` runs and may raise
`ValueError` (`none` here), which the callers catch. -/
def parseRatingField (r : Option String) : Option Rat :=
  match r with
  | none => some 0
  | some s => if s = "N/A" then some 0 else pyFloat s

/-- The poster conversion
`data.get('Poster') if data.get('Poster') != 'N/A' else None`
(`src/app.py` line 73, repeated at lines 129 and 272): a missing key gives
`None`, the sentinel "N/A" gives `None`, anything else is kept. -/
def parsePosterField (p : Option String) : Option String :=
  match p with
  | none => none
  | some s => if s = "N/A" then none else some s

/-- `os.getenv('OMDB_API_KEY')` is `None` when unset and may be the empty
string; `if not OMDB_API_KEY` treats both as missing. -/
def keyMissing (k : Option String) : Bool :=
  k.getD "" = ""

/-- The record `fetch_movie_from_api` returns on success (`src/app.py` 68–75). -/
structure FetchedMovie where
  title : String
  director : String
  year : Int
  rating : Rat
  poster : Option String
  imdb_id : String
deriving Repr, DecidableEq

/-- `fetch_movie_from_api(title)` (`src/app.py` 35–88). Returns `None` when
the API key is missing, on `requests.RequestException`, on a JSON-parse
failure, when `Response != 'True'`, and when `float()` on the rating raises
`ValueError` (the `except (ValueError, KeyError)` clause); otherwise the
extracted record. `data.get('Title', title)` defaults to the query title,
`data.get('Director', 'Unknown')` to "Unknown", `data.get('imdbID', '')`
to the empty string. -/
def fetch_movie_from_api (apiKey : Option String) (outcome : ApiOutcome)
    (title : String) : Option FetchedMovie :=
  if keyMissing apiKey then none
  else
    match outcome with
    | .networkError => none
    | .parseError => none
    | .noMatch => none
    | .success d =>
        match parseRatingField d.imdbRating with
        | none => none
        | some r =>
            some { title := d.title.getD title
                   director := d.director.getD "Unknown"
                   year := parseYearField d.year
                   rating := r
                   poster := parsePosterField d.poster
                   imdb_id := d.imdbID.getD "" }

/-- `search_movies_from_api(query)` (`src/app.py` 91–138). Returns `[]` when
the API key is missing, on `requests.RequestException`, and when
`Response != 'True'`; otherwise maps every entry of `data.get('Search', [])`
to a hit and truncates to the first 10 (`movies[:10]`), preserving order. -/
def search_movies_from_api (apiKey : Option String)
    (outcome : SearchOutcome) : List SearchHit :=
  if keyMissing apiKey then []
  else
    match outcome with
    | .networkError => []
    | .noMatch => []
    | .success entries =>
        (entries.map (fun m =>
          ({ title := m.title.getD ""
             year := m.year.getD ""
             imdb_id := m.imdbID.getD ""
             poster := parsePosterField m.poster } : SearchHit))).take 10

/-- The hit `search_movies_from_api` builds from one `Search` entry
(`src/app.py` 125–130), named separately so theorems can speak about it. -/
def searchHitOfEntry (m : SearchEntry) : SearchHit :=
  { title := m.title.getD ""
    year := m.year.getD ""
    imdb_id := m.imdbID.getD ""
    poster := parsePosterField m.poster }

/-! ## DataManager (`src/data_manager.py`) -/

/-- `User.query.get(user_id)`: primary-key lookup. -/
def getUser (dbs : DB) (uid : Nat) : Option User :=
  dbs.users.find? (fun u => u.id = uid)

/-- `Movie.query.get(movie_id)`: primary-key lookup. -/
def getMovie (dbs : DB) (mid : Nat) : Option MovieRow :=
  dbs.movies.find? (fun m => m.id = mid)

/-- `DataManager.get_user_movies` (`src/data_manager.py` 76–86):
`Movie.query.filter_by(user_id=user_id).all()`. -/
def get_user_movies (dbs : DB) (uid : Nat) : List MovieRow :=
  dbs.movies.filter (fun m => m.user_id = uid)

/-- `DataManager.add_user` (`src/data_manager.py` 14–31): builds
`User(name=name)` with no validation of any kind, adds it to the session and
commits; the primary key is assigned by autoincrement. -/
def add_user (dbs : DB) (name : String) : DB × User :=
  let u : User := { id := dbs.nextUserId, name := name }
  ({ dbs with users := dbs.users ++ [u], nextUserId := dbs.nextUserId + 1 }, u)

/-- `DataManager.delete_user` (`src/data_manager.py` 54–73): `False` if the
primary-key lookup finds no user; otherwise `db.session.delete(user)` and
commit, where the `cascade='all, delete-orphan'` relationship declared on
`User.movies` (`src/models.py` line 21) makes the delete also remove every
movie whose `user_id` is this user's id. -/
def delete_user (dbs : DB) (uid : Nat) : DB × Bool :=
  match getUser dbs uid with
  | none => (dbs, false)
  | some _ =>
      ({ dbs with users := dbs.users.filter (fun u => u.id ≠ uid)
                  movies := dbs.movies.filter (fun m => m.user_id ≠ uid) }, true)

/-- The keyword arguments `DataManager.add_movie` passes to the `Movie`
constructor (`src/data_manager.py` 110–119), in source order. -/
def movieCtorKwargs : List String :=
  ["title", "director", "year", "rating", "user_rating", "poster", "imdb_id", "user_id"]

/-- Result of `DataManager.add_movie`: `ok` carries the committed state and
the new row, `noUser` the unchanged state when the owner lookup fails
(the function returns `None`), and `raised` the unchanged state when the
`Movie(...)` constructor raises before `db.session.add` runs. -/
inductive AddMovieResult where
  | ok (dbs : DB) (m : MovieRow)
  | noUser (dbs : DB)
  | raised (dbs : DB)
deriving Repr, DecidableEq

/-- `DataManager.add_movie` (`src/data_manager.py` 88–125): returns `None`
(`noUser`) if the owner lookup fails; otherwise invokes
`Movie(title=…, director=…, year=…, rating=…, user_rating=None, poster=…,
imdb_id=…, user_id=…)`. SQLAlchemy's declarative constructor accepts only
keyword arguments that name mapped attributes and raises `TypeError` for any
other keyword, so the call commits a row only when every keyword in
`movieCtorKwargs` names a column in `movieColumns`, and otherwise raises
(`raised`) with the session untouched. -/
def add_movie (dbs : DB) (uid : Nat) (title director : String) (year : Int)
    (rating : Rat) (poster imdb_id : Option String) : AddMovieResult :=
  match getUser dbs uid with
  | none => .noUser dbs
  | some _ =>
      if movieCtorKwargs.all (fun k => movieColumns.contains k) then
        let m : MovieRow :=
          { id := dbs.nextMovieId, title := title, director := director
            year := year, rating := rating, poster := poster
            imdb_id := imdb_id, user_id := uid }
        .ok { dbs with movies := dbs.movies ++ [m]
                       nextMovieId := dbs.nextMovieId + 1 } m
      else .raised dbs

/-- The object `update_movie` returns: the row as committed plus the
`user_rating` value. `movie.user_rating = user_rating`
(`src/data_manager.py` line 150) assigns a name that is not a mapped column
of `Movie` (`src/models.py` declares none), so SQLAlchemy stores it as a
plain Python instance attribute — visible on the returned object, never
written to the `movies` table. -/
structure UpdatedMovieObj where
  row : MovieRow
  user_rating : Option Rat
deriving Repr, DecidableEq

/-- `DataManager.update_movie` (`src/data_manager.py` 127–156): `None` if
the primary-key lookup fails; otherwise assigns `title`, `director`, `year`
(mapped columns, committed) and `user_rating` (unmapped plain attribute, not
committed), leaving `rating`, `poster`, `imdb_id`, `user_id` untouched, and
commits. -/
def update_movie (dbs : DB) (mid : Nat) (title director : String) (year : Int)
    (user_rating : Option Rat) : DB × Option UpdatedMovieObj :=
  match getMovie dbs mid with
  | none => (dbs, none)
  | some m =>
      let m2 : MovieRow := { m with title := title, director := director, year := year }
      ({ dbs with movies := dbs.movies.map (fun r =>
            if r.id = mid then { r with title := title, director := director, year := year }
            else r) },
       some { row := m2, user_rating := user_rating })

/-- `DataManager.delete_movie` (`src/data_manager.py` 158–177). -/
def delete_movie (dbs : DB) (mid : Nat) : DB × Bool :=
  match getMovie dbs mid with
  | none => (dbs, false)
  | some _ => ({ dbs with movies := dbs.movies.filter (fun m => m.id ≠ mid) }, true)

/-! ## Routes (`src/app.py`) -/

/-- Observable outcome of the `create_user` route (`src/app.py` 186–193):
`request.form.get('name')` is `None` when the field is absent, and
`if name:` skips the add for both `None` and the empty string — silently,
with no error of any kind. -/
inductive CreateUserResult where
  | added (u : User)
  | skipped
deriving Repr, DecidableEq

/-- The `create_user` route (`src/app.py` 186–193). -/
def create_user_route (dbs : DB) (nameField : Option String) : DB × CreateUserResult :=
  if nameField.getD "" = "" then (dbs, .skipped)
  else
    let r := add_user dbs (nameField.getD "")
    (r.1, .added r.2)

/-- Observable outcome of the `add_movie` route (`src/app.py` 207–218):
either a flashed "Please enter a movie title!" with a redirect back, or a
redirect to the search page carrying the trimmed title as query. -/
inductive AddMovieRouteResult where
  | flashEmptyTitle
  | redirectToSearch (q : String)
deriving Repr, DecidableEq

/-- Python `str.strip()` restricted to ASCII whitespace (Python also strips
some further Unicode whitespace; no input in the claims contains any). -/
def pyStrip (s : String) : String :=
  ⟨(((s.data.dropWhile Char.isWhitespace).reverse).dropWhile Char.isWhitespace).reverse⟩

/-- The `add_movie` route (`src/app.py` 207–218): reads
`request.form.get('title', '').strip()`; if empty it flashes an error and
redirects back, otherwise it redirects to the search page. It performs no
persistence and never calls the OMDb lookup. -/
def add_movie_route (dbs : DB) (titleField : String) : DB × AddMovieRouteResult :=
  let title := pyStrip titleField
  if title = "" then (dbs, .flashEmptyTitle)
  else (dbs, .redirectToSearch title)

/-- Observable outcome of the `add_movie_by_id` route (`src/app.py`
246–283), identified by the flash message (or the 404 page). -/
inductive AddByIdResult where
  | notFound
  | flashedAdded
  | couldNotFetch
  | errorAdding
deriving Repr, DecidableEq

/-- The `add_movie_by_id` route (`src/app.py` 246–283): 404 when the user
lookup fails; then a `try` block performs the OMDb request, the field
conversions (where `float()` can raise `ValueError`) and the
`data_manager.add_movie` call; `Response != 'True'` flashes "Could not fetch
movie details."; any exception inside the block — a `RequestException`, a
JSON-parse error, a conversion `ValueError`, or the `TypeError` raised by
the `Movie` constructor inside `add_movie` — is caught by `except Exception`
and flashes "Error adding movie."; the success flash is reached whenever
`add_movie` returns (its return value is not inspected). -/
def add_movie_by_id_route (dbs : DB) (uid : Nat) (imdb_id : String)
    (outcome : ApiOutcome) : DB × AddByIdResult :=
  match getUser dbs uid with
  | none => (dbs, .notFound)
  | some _ =>
      match outcome with
      | .networkError => (dbs, .errorAdding)
      | .parseError => (dbs, .errorAdding)
      | .noMatch => (dbs, .couldNotFetch)
      | .success d =>
          match parseRatingField d.imdbRating with
          | none => (dbs, .errorAdding)
          | some r =>
              match add_movie dbs uid (d.title.getD "Unknown")
                  (d.director.getD "Unknown") (parseYearField d.year) r
                  (parsePosterField d.poster) (some imdb_id) with
              | .ok dbs2 _ => (dbs2, .flashedAdded)
              | .noUser dbs2 => (dbs2, .flashedAdded)
              | .raised dbs2 => (dbs2, .errorAdding)

/-! ## Invariant vocabulary -/

/-- Primary keys of the `movies` table are unique. -/
def movieIdsNodup (dbs : DB) : Prop :=
  (dbs.movies.map MovieRow.id).Nodup

/-- No movie row references a missing owner (referential integrity of
`movies.user_id`). -/
def noOrphans (dbs : DB) : Prop :=
  ∀ m ∈ dbs.movies, ∃ u ∈ dbs.users, u.id = m.user_id

/-- The projection of a movie row onto the columns `update_movie` must not
touch: identity, ownership, and the externally sourced `rating`, `poster`,
`imdb_id`. -/
def frameProj (r : MovieRow) : Nat × Rat × Option String × Option String × Nat :=
  (r.id, r.rating, r.poster, r.imdb_id, r.user_id)

/-! ## Concrete states and payloads used as inputs -/

/-- Empty initial state. -/
def db0 : DB :=
  { users := [], movies := [], nextUserId := 1, nextMovieId := 1 }

/-- One user "Alice" (id 1), no movies. -/
def db1 : DB :=
  { users := [{ id := 1, name := "Alice" }], movies := []
    nextUserId := 2, nextMovieId := 1 }

/-- A committed movie row owned by user 1. -/
def movieRow1 : MovieRow :=
  { id := 1, title := "Inception", director := "Christopher Nolan"
    year := 2010, rating := 9, poster := none
    imdb_id := some "tt1375666", user_id := 1 }

/-- A committed movie row owned by user 2. -/
def movieRow2 : MovieRow :=
  { id := 2, title := "Heat", director := "Michael Mann"
    year := 1995, rating := 8, poster := none
    imdb_id := none, user_id := 2 }

/-- Two users, each owning one movie. -/
def db2 : DB :=
  { users := [{ id := 1, name := "Alice" }, { id := 2, name := "Bob" }]
    movies := [movieRow1, movieRow2], nextUserId := 3, nextMovieId := 3 }

/-- A fully successful OMDb single-movie payload. -/
def inceptionData : OmdbMovieData :=
  { title := some "Inception", director := some "Christopher Nolan"
    year := some "2010", imdbRating := some "8.8"
    poster := some "https://img.example/inception.jpg"
    imdbID := some "tt1375666" }

/-- One OMDb search entry, with the poster sentinel. -/
def entry1 : SearchEntry :=
  { title := some "Inception", year := some "2010"
    imdbID := some "tt1375666", poster := some "N/A" }

/-- The zipped (updated row, original row) pair produced by running
`update_movie` on `db2` at movie 1. -/
def updPair : MovieRow × MovieRow :=
  ({ movieRow1 with title := "Inception 2", director := "Nolan", year := 2011 },
   movieRow1)

/-! ## Helper lemmas -/

/-- The `isdigit` model agrees with the standard library's `String.isNat`. -/
theorem pyIsDigit_eq_isNat (s : String) : pyIsDigit s = s.isNat := by
  unfold pyIsDigit String.isNat
  rw [String.all_eq]
  have hdata : s.data.isEmpty = s.isEmpty := by
    by_cases h : s = ""
    · subst h; rfl
    · have h1 : s.isEmpty = false := by
        rw [Bool.eq_false_iff]
        intro he
        exact h ((String.isEmpty_iff s).mp he)
      have h2 : s.data.isEmpty = false := by
        rw [Bool.eq_false_iff]
        intro he
        exact h (String.ext_iff.mpr (by simpa using he))
      rw [h1, h2]
  rw [hdata]

/-- Pairs of a list zipped with its image under a map agree pointwise. -/
theorem zip_map_self {α : Type} (f : α → α) (l : List α) :
    ∀ p ∈ (l.map f).zip l, p.1 = f p.2 := by
  induction l with
  | nil => intro p hp; simp at hp
  | cons a l ih =>
      intro p hp
      rw [List.map_cons, List.zip_cons_cons, List.mem_cons] at hp
      cases hp with
      | inl h => subst h; rfl
      | inr h => exact ih p h

/-- Pairs of a list zipped with itself are diagonal. -/
theorem zip_self_diag {α : Type} (l : List α) : ∀ p ∈ l.zip l, p.1 = p.2 := by
  have := zip_map_self id l
  rw [List.map_id] at this
  exact this

/-! ## Claim theorems -/

/-- C7: for every title, `fetch_movie_from_api` returns `None` — it never
raises or propagates an error — when the credential is missing (unset or
empty), when the service reports no match, when the request fails with a
network error, and when the response fails to parse; the four cases all
produce the very same `None` and are indistinguishable to the caller. -/
theorem fetch_movie_soft_failure :
    (∀ (o : ApiOutcome) (t : String), fetch_movie_from_api none o t = none) ∧
    (∀ (o : ApiOutcome) (t : String), fetch_movie_from_api (some "") o t = none) ∧
    (∀ (k : Option String) (t : String),
      fetch_movie_from_api k ApiOutcome.noMatch t = none ∧
      fetch_movie_from_api k ApiOutcome.networkError t = none ∧
      fetch_movie_from_api k ApiOutcome.parseError t = none) := by
  refine ⟨fun o t => rfl, fun o t => rfl, fun k t => ?_⟩
  unfold fetch_movie_from_api
  cases hk : keyMissing k <;> simp [hk]

/-- C10: in the lookup path's numeric conversions, the year conversion
agrees with the standard parser `String.toNat?` with default 0 — an
all-decimal-digit string yields that integer, anything else (including ""
and "TBD", and a missing key) yields 0; a rating equal to the service's
"N/A" sentinel (or a missing rating) is treated as 0.0; a poster equal to
the sentinel (or missing) is treated as absent. -/
theorem lookup_numeric_parsing :
    (∀ s : String, parseYearField (some s) = ((s.toNat?.getD 0 : Nat) : Int)) ∧
    parseYearField (some "2010") = 2010 ∧
    parseYearField (some "") = 0 ∧
    parseYearField (some "TBD") = 0 ∧
    parseYearField none = 0 ∧
    parseRatingField (some "N/A") = some 0 ∧
    parseRatingField none = some 0 ∧
    parsePosterField (some "N/A") = none ∧
    parsePosterField none = none := by
  refine ⟨?_, by decide, by decide, by decide, by decide, rfl, rfl, rfl, rfl⟩
  intro s
  unfold parseYearField String.toNat?
  rw [← pyIsDigit_eq_isNat]
  cases hp : pyIsDigit s with
  | false => simp [hp]
  | true =>
      simp only [hp, Option.getD_some, if_true]
      rw [String.foldl_eq]
      rfl

/-- C1: for every state and every combination of caller-supplied values,
`update_movie(movie_id, title, director, year, user_rating)` leaves every
movie's `rating` (externalRating), `poster` (posterUrl) and `imdb_id`
(externalId) — together with its identity and ownership — exactly as they
were, and leaves the user table untouched: only `title`, `director`,
`year` (and the unmapped in-memory `user_rating` attribute) can change. -/
theorem update_movie_preserves_external_fields
    (dbs : DB) (mid : Nat) (t d : String) (y : Int) (ur : Option Rat) :
    ((update_movie dbs mid t d y ur).1).users = dbs.users ∧
    ((update_movie dbs mid t d y ur).1).movies.map frameProj
      = dbs.movies.map frameProj := by
  unfold update_movie
  cases h : getMovie dbs mid with
  | none => exact ⟨rfl, rfl⟩
  | some m =>
      refine ⟨rfl, ?_⟩
      simp only
      rw [List.map_map]
      apply List.map_congr_left
      intro r _
      by_cases hr : r.id = mid <;> simp [frameProj, Function.comp, hr]

/-- C6 counterexample: `add_user` applied to the empty name does not fail —
it persists a user: starting from the empty store it commits a user row
whose name is the empty string, refuting "fails with a ValidationError when
name is the empty string, persisting nothing". -/
theorem add_user_empty_name_cex :
    ((add_user db0 "").1).users = [{ id := 1, name := "" }] ∧
    ((add_user db0 "").2).name = "" := by
  exact ⟨rfl, rfl⟩

/-- C6 amended: `add_user` performs no validation at all: for every state
and every name — the empty string included — it persists and returns a new
User with the system-assigned identifier carrying exactly that name; no
error is ever raised (the `create_user` route separately skips the call,
silently, when the submitted name is empty or missing). -/
theorem add_user_no_validation (dbs : DB) (name : String) :
    ((add_user dbs name).2).name = name ∧
    ((add_user dbs name).2).id = dbs.nextUserId ∧
    ((add_user dbs name).1).users = dbs.users ++ [(add_user dbs name).2] ∧
    create_user_route dbs none = (dbs, CreateUserResult.skipped) ∧
    create_user_route dbs (some "") = (dbs, CreateUserResult.skipped) := by
  exact ⟨rfl, rfl, rfl, rfl, rfl⟩

/-- C2 counterexample: with user Alice (id 1) present and the non-empty
title "Inception", the add-movie-by-title operation persists nothing — the
movie table stays empty — and merely redirects to the search page, refuting
"persists and returns a Movie even when the metadata lookup returns
Absent". -/
theorem add_movie_route_persists_nothing_cex :
    (add_movie_route db1 "Inception").1 = db1 ∧
    ((add_movie_route db1 "Inception").1).movies = [] ∧
    (add_movie_route db1 "Inception").2
      = AddMovieRouteResult.redirectToSearch "Inception" := by
  refine ⟨?_, ?_, ?_⟩ <;> decide

/-- C2 amended: the add-movie-by-title operation persists nothing for any
input and never invokes the metadata lookup: it leaves the store unchanged;
when the stripped title is empty it flashes "Please enter a movie title!"
and redirects back, otherwise it redirects to the search page carrying the
stripped title as the query. -/
theorem add_movie_route_spec (dbs : DB) (titleField : String) :
    (add_movie_route dbs titleField).1 = dbs ∧
    (pyStrip titleField = "" →
      (add_movie_route dbs titleField).2 = AddMovieRouteResult.flashEmptyTitle) ∧
    (pyStrip titleField ≠ "" →
      (add_movie_route dbs titleField).2
        = AddMovieRouteResult.redirectToSearch (pyStrip titleField)) := by
  unfold add_movie_route
  by_cases h : pyStrip titleField = "" <;> simp [h]

/-- Witness for the amended C2 theorem at a concrete input. -/
theorem add_movie_route_spec_witness :
    pyStrip "Inception" ≠ "" ∧
    (add_movie_route db1 "Inception").2
      = AddMovieRouteResult.redirectToSearch (pyStrip "Inception") :=
  ⟨by decide, (add_movie_route_spec db1 "Inception").2.2 (by decide)⟩

/-- C3: `DataManager.add_movie` hands the `Movie` constructor the keyword
`user_rating`, which is not among the model's mapped columns, so for every
state and every argument combination with an existing owner the constructor
raises `TypeError` before `db.session.add` runs: the operation never
persists a movie and leaves the store unchanged. -/
theorem add_movie_always_raises_for_valid_owner
    (dbs : DB) (uid : Nat) (t d : String) (y : Int) (r : Rat)
    (p i : Option String) (h : (getUser dbs uid).isSome = true) :
    ("user_rating" ∈ movieCtorKwargs ∧ "user_rating" ∉ movieColumns) ∧
    add_movie dbs uid t d y r p i = AddMovieResult.raised dbs := by
  refine ⟨⟨by decide, by decide⟩, ?_⟩
  unfold add_movie
  cases hu : getUser dbs uid with
  | none => rw [hu] at h; simp at h
  | some u =>
      simp only [hu]
      rw [if_neg]
      intro hg
      exact absurd hg (by decide)

/-- Witness for the C3 theorem at a concrete input. -/
theorem add_movie_always_raises_witness :
    (getUser db1 1).isSome = true ∧
    add_movie db1 1 "Inception" "Christopher Nolan" 2010 9 none (some "tt1375666")
      = AddMovieResult.raised db1 :=
  ⟨by decide,
   (add_movie_always_raises_for_valid_owner db1 1 "Inception" "Christopher Nolan"
      2010 9 none (some "tt1375666") (by decide)).2⟩

/-- C4 (the failing input): with owner Alice (id 1) present, identifier
"tt1375666", and a fully successful lookup, the route does not persist the
enriched movie: `data_manager.add_movie` raises `TypeError` on its
`user_rating` keyword, the route's `except Exception` catches it and
flashes "Error adding movie.", and the store is unchanged. The
unresolvable-identifier half of the claim does hold: `Response != 'True'`
flashes "Could not fetch movie details." and creates nothing. -/
theorem add_movie_by_id_route_drops_enriched_movie :
    add_movie_by_id_route db1 1 "tt1375666" (ApiOutcome.success inceptionData)
      = (db1, AddByIdResult.errorAdding) ∧
    add_movie_by_id_route db1 1 "tt1375666" ApiOutcome.noMatch
      = (db1, AddByIdResult.couldNotFetch) ∧
    ((add_movie_by_id_route db1 1 "tt1375666"
        (ApiOutcome.success inceptionData)).1).movies.length
      = db1.movies.length := by
  exact ⟨rfl, rfl, rfl⟩

/-- The committed movie table after `update_movie`, as a function of the
primary-key lookup. -/
theorem update_movie_fst (dbs : DB) (mid : Nat) (t d : String) (y : Int)
    (ur : Option Rat) :
    ((update_movie dbs mid t d y ur).1).movies
      = match getMovie dbs mid with
        | none => dbs.movies
        | some _ => dbs.movies.map (fun r =>
            if r.id = mid then { r with title := t, director := d, year := y }
            else r) := by
  unfold update_movie
  cases getMovie dbs mid <;> rfl

/-- C8: `update_movie` persists only the new title, director and year: the
`user_rating` argument goes to an attribute that is not a mapped column
(`"user_rating" ∉ movieColumns`), so the committed state is identical for
every pair of `user_rating` arguments, and each committed row is either
untouched or equal to the old row with exactly title, director and year
replaced — no user rating is ever stored, and a re-read yields a row with
no user-rating column at all. -/
theorem update_movie_user_rating_not_persisted :
    "user_rating" ∉ movieColumns ∧
    (∀ (dbs : DB) (mid : Nat) (t d : String) (y : Int) (ur ur' : Option Rat),
      ((update_movie dbs mid t d y ur).1) = ((update_movie dbs mid t d y ur').1)) ∧
    (∀ (dbs : DB) (mid : Nat) (t d : String) (y : Int) (ur : Option Rat),
      ∀ p ∈ (((update_movie dbs mid t d y ur).1).movies).zip dbs.movies,
        p.1 = p.2 ∨ p.1 = { p.2 with title := t, director := d, year := y }) := by
  refine ⟨by decide, ?_, ?_⟩
  · intro dbs mid t d y ur ur'
    unfold update_movie
    cases h : getMovie dbs mid <;> rfl
  · intro dbs mid t d y ur p hp
    rw [update_movie_fst] at hp
    split at hp
    · exact Or.inl (zip_self_diag _ p hp)
    · have hq := zip_map_self
        (fun r => if r.id = mid then { r with title := t, director := d, year := y } else r)
        dbs.movies p hp
      by_cases hid : p.2.id = mid
      · right; rw [hq]; simp [hid]
      · left; rw [hq]; simp [hid]

/-- Witness for the C8 theorem at a concrete input. -/
theorem update_movie_user_rating_not_persisted_witness :
    "user_rating" ∉ movieColumns ∧
    ((update_movie db2 1 "Inception 2" "Nolan" 2011 (some 9)).1
      = (update_movie db2 1 "Inception 2" "Nolan" 2011 none).1) ∧
    (updPair.1 = updPair.2 ∨
     updPair.1 = { updPair.2 with title := "Inception 2", director := "Nolan", year := 2011 }) :=
  ⟨update_movie_user_rating_not_persisted.1,
   update_movie_user_rating_not_persisted.2.1 db2 1 "Inception 2" "Nolan" 2011 (some 9) none,
   update_movie_user_rating_not_persisted.2.2 db2 1 "Inception 2" "Nolan" 2011 (some 9)
     updPair (by decide)⟩

/-- C5: `delete_user` returns false and changes nothing when no such user
exists; otherwise it returns true and removes the user together with every
movie they own, in one committed step: afterwards the deleted user's movie
list is empty, the user is gone, each deleted movie's identifier is no
longer retrievable (given unique movie primary keys), every other user's
movie survives, and no orphaned movie is observable afterwards if none was
before. -/
theorem delete_user_spec (dbs : DB) (uid : Nat) :
    (getUser dbs uid = none → delete_user dbs uid = (dbs, false)) ∧
    (getUser dbs uid ≠ none →
      (delete_user dbs uid).2 = true ∧
      get_user_movies (delete_user dbs uid).1 uid = [] ∧
      getUser (delete_user dbs uid).1 uid = none ∧
      (movieIdsNodup dbs → ∀ m ∈ dbs.movies, m.user_id = uid →
        getMovie (delete_user dbs uid).1 m.id = none) ∧
      (∀ m ∈ dbs.movies, m.user_id ≠ uid → m ∈ ((delete_user dbs uid).1).movies) ∧
      (noOrphans dbs → noOrphans (delete_user dbs uid).1)) := by
  constructor
  · intro h
    unfold delete_user
    rw [h]
  · intro h
    cases hu : getUser dbs uid with
    | none => exact absurd hu h
    | some u =>
        have hdel : delete_user dbs uid =
            ({ dbs with users := dbs.users.filter (fun v => v.id ≠ uid)
                        movies := dbs.movies.filter (fun m => m.user_id ≠ uid) },
             true) := by
          unfold delete_user
          rw [hu]
        rw [hdel]
        refine ⟨rfl, ?_, ?_, ?_, ?_, ?_⟩
        · unfold get_user_movies
          rw [List.filter_eq_nil_iff]
          intro m hm
          rw [List.mem_filter] at hm
          simp only [decide_eq_true_eq] at hm ⊢
          exact hm.2
        · unfold getUser
          rw [List.find?_eq_none]
          intro v hv
          rw [List.mem_filter] at hv
          simp only [decide_eq_true_eq] at hv ⊢
          exact hv.2
        · intro hnd m hm hmu
          unfold getMovie
          rw [List.find?_eq_none]
          intro m2 hm2
          rw [List.mem_filter] at hm2
          simp only [decide_eq_true_eq] at hm2 ⊢
          intro hid
          unfold movieIdsNodup at hnd
          have hmm : m2 = m := List.inj_on_of_nodup_map hnd hm2.1 hm hid
          exact hm2.2 (hmm ▸ hmu)
        · intro m hm hmu
          exact List.mem_filter.mpr ⟨hm, by simpa using hmu⟩
        · intro hno m hm
          rw [List.mem_filter] at hm
          simp only [decide_eq_true_eq] at hm
          obtain ⟨u2, hu2, hid⟩ := hno m hm.1
          refine ⟨u2, List.mem_filter.mpr ⟨hu2, ?_⟩, hid⟩
          simp only [decide_eq_true_eq]
          rw [hid]
          exact hm.2

/-- Witness for the C5 theorem at a concrete input: deleting user 1 of
`db2` removes Alice and her movie, keeps Bob's. -/
theorem delete_user_spec_witness :
    getUser db2 1 ≠ none ∧
    (delete_user db2 1).2 = true ∧
    get_user_movies (delete_user db2 1).1 1 = [] ∧
    getUser (delete_user db2 1).1 1 = none ∧
    getMovie (delete_user db2 1).1 movieRow1.id = none ∧
    movieRow2 ∈ ((delete_user db2 1).1).movies := by
  have h := (delete_user_spec db2 1).2 (by decide)
  exact ⟨by decide, h.1, h.2.1, h.2.2.1,
    h.2.2.2.1 (by unfold movieIdsNodup; decide) movieRow1 (by decide) (by decide),
    h.2.2.2.2.1 movieRow2 (by decide) (by decide)⟩

/-- C9: for every query outcome, `search_movies_from_api` returns at most
10 hits; with a configured key and a successful response it returns exactly
the entry-wise conversions (title, year-as-displayed-string, external
identifier, poster-or-absent) of the first up-to-10 entries in
service-provided order; on any failure — missing credential, request
error, or no matches — it returns the empty list and propagates nothing. -/
theorem search_movies_spec :
    (∀ (k : Option String) (o : SearchOutcome),
      (search_movies_from_api k o).length ≤ 10) ∧
    (∀ o : SearchOutcome,
      search_movies_from_api none o = [] ∧
      search_movies_from_api (some "") o = []) ∧
    (∀ k : Option String,
      search_movies_from_api k SearchOutcome.networkError = [] ∧
      search_movies_from_api k SearchOutcome.noMatch = []) ∧
    (∀ (k : Option String) (entries : List SearchEntry), keyMissing k = false →
      search_movies_from_api k (SearchOutcome.success entries)
        = (entries.take 10).map searchHitOfEntry) := by
  refine ⟨?_, fun o => ⟨rfl, rfl⟩, ?_, ?_⟩
  · intro k o
    unfold search_movies_from_api
    cases hk : keyMissing k with
    | true => simp [hk]
    | false =>
        simp only [hk, Bool.false_eq_true, if_false]
        cases o with
        | noMatch => simp
        | networkError => simp
        | success entries => exact List.length_take_le 10 _
  · intro k
    unfold search_movies_from_api
    cases hk : keyMissing k <;> simp [hk]
  · intro k entries hk
    unfold search_movies_from_api
    simp only [hk, Bool.false_eq_true, if_false]
    rw [List.map_take]
    rfl

/-- Witness for the C9 theorem at a concrete input. -/
theorem search_movies_spec_witness :
    keyMissing (some "secret") = false ∧
    search_movies_from_api (some "secret") (SearchOutcome.success [entry1])
      = ([entry1].take 10).map searchHitOfEntry :=
  ⟨by decide, search_movies_spec.2.2.2 (some "secret") [entry1] (by decide)⟩
